import Mathlib

/-!
Shallow embedding of the `gh` package (a GitHub REST client) from
`angelvargass/go-common`, together with proofs about its operations.

Every platform call made by the client is modelled by an explicit stub
result passed to the embedded operation (value, optional `*Response`,
optional `error`), matching Go's `(T, *github.Response, error)` return
convention.  A Go nil-pointer dereference is modelled by the `panicked`
outcome.  Logging is modelled by an explicit list of emitted records.
-/

namespace Gh

/-- Go `error` values flowing through the client: platform/API errors,
the core sealing errors, and `fmt.Errorf`-style wrapping. -/
inductive GoError where
  | api (msg : String)
  | invalidKeyError
  | encryptionError
  | wrap (msg : String) (inner : GoError)
deriving DecidableEq, Repr

/-- The part of `*github.Response` the client reads. -/
structure Response where
  statusCode : Nat
deriving DecidableEq, Repr

/-- Result of one stubbed platform call, Go-style: a possibly-nil value,
a possibly-nil response object, and a possibly-nil error. -/
structure CallResult (α : Type) where
  value : Option α
  res : Option Response
  err : Option GoError
deriving DecidableEq, Repr

/-- Outcome of running an embedded operation: a Go runtime panic
(nil dereference), an error return, or a normal return. -/
inductive Ret (α : Type) where
  | panicked
  | err (e : GoError)
  | ok (a : α)
deriving DecidableEq, Repr

/-- One `slog` record: message plus string attributes, in order. -/
structure LogRecord where
  msg : String
  attrs : List (String × String)
deriving DecidableEq, Repr

/-! ### Base64 (standard alphabet, with padding)

Used by the sealing engine: the recipient public key arrives
base64-encoded and the ciphertext is re-encoded as base64. -/

def b64Alphabet : List Char :=
  "ABCDEFGHIJKLMNOPQRSTUVWXYZabcdefghijklmnopqrstuvwxyz0123456789+/".data

def b64Char (n : Nat) : Char := b64Alphabet.getD n '?'

def b64IndexAux : List Char → Nat → Char → Option Nat
  | [], _, _ => none
  | a :: rest, i, c => if a = c then some i else b64IndexAux rest (i + 1) c

def b64Index (c : Char) : Option Nat := b64IndexAux b64Alphabet 0 c

/-- Encode a byte list (values < 256) into base64 characters. -/
def encodeChunks : List Nat → List Char
  | [] => []
  | [a] => [b64Char (a / 4), b64Char (a % 4 * 16), '=', '=']
  | [a, b] => [b64Char (a / 4), b64Char (a % 4 * 16 + b / 16), b64Char (b % 16 * 4), '=']
  | a :: b :: c :: rest =>
      b64Char (a / 4) :: b64Char (a % 4 * 16 + b / 16) :: b64Char (b % 16 * 4 + c / 64) ::
        b64Char (c % 64) :: encodeChunks rest

def encodeB64 (bs : List Nat) : String := ⟨encodeChunks bs⟩

/-- Decode one 4-character base64 chunk into 1 to 3 bytes. -/
def decode4 (c1 c2 c3 c4 : Char) : Option (List Nat) :=
  match b64Index c1, b64Index c2 with
  | some a, some b =>
    if c3 = '=' then
      if c4 = '=' then (if b % 16 = 0 then some [a * 4 + b / 16] else none) else none
    else
      match b64Index c3 with
      | some c =>
        if c4 = '=' then
          (if c % 4 = 0 then some [a * 4 + b / 16, b % 16 * 16 + c / 4] else none)
        else
          match b64Index c4 with
          | some d => some [a * 4 + b / 16, b % 16 * 16 + c / 4, c % 4 * 64 + d]
          | none => none
      | none => none
  | _, _ => none

def decodeChunks : List Char → Option (List Nat)
  | [] => some []
  | c1 :: c2 :: c3 :: c4 :: rest =>
    match decode4 c1 c2 c3 c4, decodeChunks rest with
    | some chunk, some tail => some (chunk ++ tail)
    | _, _ => none
  | _ => none

def decodeB64 (s : String) : Option (List Nat) := decodeChunks s.data

/-! ### Base64 roundtrip, hence injectivity of the encoder on byte lists -/

theorem b64Index_b64Char : ∀ n < 64, b64Index (b64Char n) = some n := by decide

theorem b64Char_ne_pad : ∀ n < 64, b64Char n ≠ '=' := by decide

theorem decode4_encode_three (a b c : Nat) (ha : a < 256) (hb : b < 256) (hc : c < 256) :
    decode4 (b64Char (a / 4)) (b64Char (a % 4 * 16 + b / 16))
      (b64Char (b % 16 * 4 + c / 64)) (b64Char (c % 64)) = some [a, b, c] := by
  have h1 : a / 4 < 64 := by omega
  have h2 : a % 4 * 16 + b / 16 < 64 := by omega
  have h3 : b % 16 * 4 + c / 64 < 64 := by omega
  have h4 : c % 64 < 64 := by omega
  have e1 : a / 4 * 4 + (a % 4 * 16 + b / 16) / 16 = a := by omega
  have e2 : (a % 4 * 16 + b / 16) % 16 * 16 + (b % 16 * 4 + c / 64) / 4 = b := by omega
  have e3 : (b % 16 * 4 + c / 64) % 4 * 64 + c % 64 = c := by omega
  simp [decode4, b64Index_b64Char _ h1, b64Index_b64Char _ h2, b64Index_b64Char _ h3,
    b64Index_b64Char _ h4, b64Char_ne_pad _ h3, b64Char_ne_pad _ h4, e1, e2, e3]

theorem decode4_encode_two (a b : Nat) (ha : a < 256) (hb : b < 256) :
    decode4 (b64Char (a / 4)) (b64Char (a % 4 * 16 + b / 16)) (b64Char (b % 16 * 4)) '=' =
      some [a, b] := by
  have h1 : a / 4 < 64 := by omega
  have h2 : a % 4 * 16 + b / 16 < 64 := by omega
  have h3 : b % 16 * 4 < 64 := by omega
  have hmod : b % 16 * 4 % 4 = 0 := by omega
  have e1 : a / 4 * 4 + (a % 4 * 16 + b / 16) / 16 = a := by omega
  have e2 : (a % 4 * 16 + b / 16) % 16 * 16 + b % 16 = b := by omega
  simp [decode4, b64Index_b64Char _ h1, b64Index_b64Char _ h2, b64Index_b64Char _ h3,
    b64Char_ne_pad _ h3, hmod, e1, e2]

theorem decode4_encode_one (a : Nat) (ha : a < 256) :
    decode4 (b64Char (a / 4)) (b64Char (a % 4 * 16)) '=' '=' = some [a] := by
  have h1 : a / 4 < 64 := by omega
  have h2 : a % 4 * 16 < 64 := by omega
  have hmod : a % 4 * 16 % 16 = 0 := by omega
  have e1 : a / 4 * 4 + a % 4 = a := by omega
  simp [decode4, b64Index_b64Char _ h1, b64Index_b64Char _ h2, hmod, e1]

theorem decodeChunks_encodeChunks (bs : List Nat) (h : ∀ b ∈ bs, b < 256) :
    decodeChunks (encodeChunks bs) = some bs := by
  induction bs using encodeChunks.induct with
  | case1 => rfl
  | case2 a =>
    have ha : a < 256 := h a (by simp)
    simp [encodeChunks, decodeChunks, decode4_encode_one a ha]
  | case3 a b =>
    have ha : a < 256 := h a (by simp)
    have hb : b < 256 := h b (by simp)
    simp [encodeChunks, decodeChunks, decode4_encode_two a b ha hb]
  | case4 a b c rest ih =>
    have ha : a < 256 := h a (by simp)
    have hb : b < 256 := h b (by simp)
    have hc : c < 256 := h c (by simp)
    have hrest : ∀ x ∈ rest, x < 256 := fun x hx => h x (by simp [hx])
    simp [encodeChunks, decodeChunks, decode4_encode_three a b c ha hb hc, ih hrest]

theorem encodeB64_inj (bs1 bs2 : List Nat) (h1 : ∀ b ∈ bs1, b < 256)
    (h2 : ∀ b ∈ bs2, b < 256) (hne : bs1 ≠ bs2) : encodeB64 bs1 ≠ encodeB64 bs2 := by
  intro h
  apply hne
  have hchars : encodeChunks bs1 = encodeChunks bs2 := congrArg String.data h
  have hd1 := decodeChunks_encodeChunks bs1 h1
  have hd2 := decodeChunks_encodeChunks bs2 h2
  rw [hchars] at hd1
  exact Option.some.inj (hd1.symm.trans hd2)

/-! ### UTF-8 view of a Go string

Go strings are byte sequences; `len(value)` and the bytes handed to the
sealing primitive are the UTF-8 encoding of the string. -/

def charUTF8 (c : Char) : List Nat :=
  let n := c.toNat
  if n < 128 then [n]
  else if n < 2048 then [192 + n / 64, 128 + n % 64]
  else if n < 65536 then [224 + n / 4096, 128 + n / 64 % 64, 128 + n % 64]
  else [240 + n / 262144, 128 + n / 4096 % 64, 128 + n / 64 % 64, 128 + n % 64]

def utf8Bytes (s : String) : List Nat := s.data.flatMap charUTF8

/-! ### Secret Sealing Engine

Modelled from the spec: `encryptSecret` is declared on `Github` and called
from `CreateOrUpdateRepositorySecret`, but its defining file is not under
`src/`.  The spec describes it as a sealed-box construction: decode the
base64 recipient key and fail with `InvalidKeyError` unless it has the
expected fixed size (32 bytes); otherwise generate a fresh ephemeral
keypair, encrypt the plaintext under a key derived from the ephemeral
secret and the recipient key, prepend the ephemeral public key, and
re-encode the sealed bytes as base64.  The ephemeral public key (32 bytes,
supplied here as the explicit `eph` randomness argument) plus the
16-byte authentication tag give the fixed 48-byte overhead.  The
keystream/tag derivation below is a concrete executable stand-in for the
vetted library primitive; the claims depend only on the sealed-box format
(ephemeral key prepended, fixed overhead, length check before use). -/

def keystreamByte (eph keyBytes : List Nat) (i : Nat) : Nat :=
  (eph.foldl (fun a b => a * 31 + b) 7 + keyBytes.foldl (fun a b => a * 31 + b) 11 + i * 131) % 256

def streamEncryptAux (eph keyBytes : List Nat) (i : Nat) : List Nat → List Nat
  | [] => []
  | b :: rest => (b + keystreamByte eph keyBytes i) % 256 :: streamEncryptAux eph keyBytes (i + 1) rest

/-- Modelled from the spec: the body of the sealed box — authenticated
encryption of the message under the ephemeral/recipient shared key. -/
def streamEncrypt (eph keyBytes msg : List Nat) : List Nat :=
  streamEncryptAux eph keyBytes 0 msg

/-- Modelled from the spec: the 16-byte authentication tag of the sealed box. -/
def authTag (eph keyBytes msg : List Nat) : List Nat :=
  (List.range 16).map fun i => keystreamByte eph keyBytes (msg.length + i)

/-- Modelled from the spec: the sealed-box ciphertext — the ephemeral
public key, the authentication tag, then the encrypted message. -/
def sealAnonymous (eph keyBytes msg : List Nat) : List Nat :=
  eph ++ authTag eph keyBytes msg ++ streamEncrypt eph keyBytes msg

/-- Fixed per-scheme overhead: 32-byte ephemeral public key plus 16-byte tag. -/
def boxOverhead : Nat := 48

/-- One invocation of the underlying sealing primitive: the (decoded)
recipient key bytes and message bytes it was handed. -/
structure SealCall where
  keyBytes : List Nat
  msg : List Nat
deriving DecidableEq, Repr

/-- Modelled from the spec: `encryptSecret`, instrumented with the list of
invocations of the underlying sealing primitive.  Decodes the base64
recipient key, fails with `InvalidKeyError` unless it decodes to exactly
32 bytes, otherwise seals the UTF-8 plaintext bytes and re-encodes the
result as base64. -/
def encryptSecretRun (eph : List Nat) (keyB64 secretValue : String) :
    List SealCall × Except GoError String :=
  match decodeB64 keyB64 with
  | none => ([], .error .invalidKeyError)
  | some kb =>
    if kb.length = 32 then
      ([⟨kb, utf8Bytes secretValue⟩],
        .ok (encodeB64 (sealAnonymous eph kb (utf8Bytes secretValue))))
    else ([], .error .invalidKeyError)

/-- Modelled from the spec: `encryptSecret` as called by
`CreateOrUpdateRepositorySecret` (result only). -/
def encryptSecret (eph : List Nat) (keyB64 secretValue : String) : Except GoError String :=
  (encryptSecretRun eph keyB64 secretValue).2

/-- Does the recipient key decode to the expected fixed size (32 bytes)? -/
def keyDecodesTo32 (keyB64 : String) : Bool :=
  match decodeB64 keyB64 with
  | some kb => kb.length == 32
  | none => false

/-! #### Byte bounds and length of the sealed box -/

theorem streamEncryptAux_lt (eph kb : List Nat) (i : Nat) (msg : List Nat) :
    ∀ b ∈ streamEncryptAux eph kb i msg, b < 256 := by
  induction msg generalizing i with
  | nil => intro b hb; simp [streamEncryptAux] at hb
  | cons a rest ih =>
    intro b hb
    simp only [streamEncryptAux, List.mem_cons] at hb
    rcases hb with h | h
    · subst h; exact Nat.mod_lt _ (by omega)
    · exact ih (i + 1) b h

theorem streamEncryptAux_length (eph kb : List Nat) (i : Nat) (msg : List Nat) :
    (streamEncryptAux eph kb i msg).length = msg.length := by
  induction msg generalizing i with
  | nil => rfl
  | cons a rest ih => simp [streamEncryptAux, ih]

theorem authTag_lt (eph kb msg : List Nat) : ∀ b ∈ authTag eph kb msg, b < 256 := by
  intro b hb
  simp only [authTag, List.mem_map] at hb
  obtain ⟨i, _, hi⟩ := hb
  subst hi
  exact Nat.mod_lt _ (by omega)

theorem sealAnonymous_lt (eph kb msg : List Nat) (heph : ∀ b ∈ eph, b < 256) :
    ∀ b ∈ sealAnonymous eph kb msg, b < 256 := by
  intro b hb
  simp only [sealAnonymous, List.mem_append] at hb
  rcases hb with (h | h) | h
  · exact heph b h
  · exact authTag_lt eph kb msg b h
  · exact streamEncryptAux_lt eph kb 0 msg b h

theorem sealAnonymous_length (eph kb msg : List Nat) (heph : eph.length = 32) :
    (sealAnonymous eph kb msg).length = msg.length + boxOverhead := by
  simp [sealAnonymous, authTag, streamEncrypt, streamEncryptAux_length, heph, boxOverhead]
  omega

theorem sealAnonymous_take (eph kb msg : List Nat) (heph : eph.length = 32) :
    (sealAnonymous eph kb msg).take 32 = eph := by
  simp only [sealAnonymous, List.append_assoc]
  rw [List.take_left' heph]

/-! ### Platform resource shapes (the fields the client reads or fills) -/

/-- `github.Repository` as consumed: pointer-style optional fields. -/
structure Repository where
  name : Option String
  defaultBranch : Option String
deriving DecidableEq, Repr

/-- `github.Repository` as sent by `CreateRepository` (the fields it sets;
`isPrivate` embeds the `Private` field, renamed for Lean). -/
structure NewRepository where
  name : Option String
  isPrivate : Option Bool
  hasIssues : Option Bool
  hasProjects : Option Bool
  hasWiki : Option Bool
  autoInit : Option Bool
  hasDiscussions : Option Bool
  deleteBranchOnMerge : Option Bool
  useSquashPRTitleAsDefault : Option Bool
  allowForking : Option Bool
deriving DecidableEq, Repr

structure GitObject where
  sha : Option String
deriving DecidableEq, Repr

structure Reference where
  ref : Option String
  object : Option GitObject
deriving DecidableEq, Repr

structure RepositoryContent where
  path : Option String
deriving DecidableEq, Repr

structure RepositoryContentResponse where
  sha : Option String
deriving DecidableEq, Repr

/-- `github.RepositoryContentFileOptions` as filled by `CreateOrUpdateFile`. -/
structure RepositoryContentFileOptions where
  message : Option String
  content : List Nat
  sha : Option String
  branch : Option String
deriving DecidableEq, Repr

/-- `github.PublicKey`: both fields are pointers. -/
structure PublicKey where
  keyID : Option String
  key : Option String
deriving DecidableEq, Repr

/-- `github.EncryptedSecret` as submitted. -/
structure EncryptedSecret where
  name : String
  keyID : String
  encryptedValue : String
deriving DecidableEq, Repr

/-- Result of `Repositories.GetContents`: two content values, response, error. -/
structure ContentsResult where
  fileContent : Option RepositoryContent
  directoryContent : Option (List RepositoryContent)
  res : Option Response
  err : Option GoError
deriving DecidableEq, Repr

/-! ### Resource Orchestration operations -/

/-- `GetRepository`: logs, reads `res.StatusCode` (a nil `res` panics),
logs not-found on 404, then wraps and returns any error. -/
def GetRepository (owner name : String) (call : CallResult Repository) :
    List LogRecord × Ret (Option Repository) :=
  let l0 := [⟨"get repository", [("owner", owner), ("repo name", name)]⟩]
  match call.res with
  | none => (l0, .panicked)
  | some res =>
    let l1 := l0 ++
      (if res.statusCode = 404 then
        [⟨"repository not found", [("owner", owner), ("repo name", name)]⟩]
      else [])
    match call.err with
    | some e => (l1, .err (.wrap ("error getting repository " ++ owner ++ "/" ++ name) e))
    | none => (l1, .ok call.value)

/-- The repository body `CreateRepository` sends to `Repositories.Create`. -/
def createRepositoryBody (name : String) : NewRepository :=
  { name := some name
    isPrivate := some false
    hasIssues := some true
    hasProjects := some false
    hasWiki := some false
    autoInit := some true
    hasDiscussions := some true
    deleteBranchOnMerge := some true
    useSquashPRTitleAsDefault := some true
    allowForking := some true }

structure CreateRepoRun where
  logs : List LogRecord
  request : String × NewRepository
  ret : Ret (Option Repository)
deriving DecidableEq, Repr

/-- `CreateRepository`: always passes `""` as the organization argument of
`Repositories.Create`; reads `res.StatusCode` (nil `res` panics) for the
422 log, then returns the error or the repository. -/
def CreateRepository (organization name : String) (call : CallResult Repository) :
    CreateRepoRun :=
  let l0 := [⟨"creating repository", [("organization", organization), ("name", name)]⟩]
  let req := ("", createRepositoryBody name)
  match call.res with
  | none => { logs := l0, request := req, ret := .panicked }
  | some res =>
    let l1 := l0 ++
      (if res.statusCode = 422 then
        [⟨"validation failed", [("organization", organization), ("name", name)]⟩]
      else [])
    match call.err with
    | some e =>
      { logs := l1 ++ [⟨"error creating repository", [("organization", organization), ("name", name)]⟩]
        request := req
        ret := .err e }
    | none => { logs := l1, request := req, ret := .ok call.value }

structure BranchRun where
  logs : List LogRecord
  createdRefs : List Reference
  ret : Ret (Option Reference)
deriving DecidableEq, Repr

/-- `CreateBranch`: resolves the repository (via `GetRepository`), then the
default branch tip via `Git.GetRef`, then calls `Git.CreateRef` with the
resolved SHA.  `createdRefs` records the references passed to
`Git.CreateRef`. -/
def CreateBranch (owner repoName branchName : String) (repoCall : CallResult Repository)
    (refCall createCall : CallResult Reference) : BranchRun :=
  let l0 := [⟨"creating branch",
    [("owner", owner), ("repo name", repoName), ("branch name", branchName)]⟩]
  let g := GetRepository owner repoName repoCall
  match g.2 with
  | .panicked => { logs := l0 ++ g.1, createdRefs := [], ret := .panicked }
  | .err e =>
    { logs := l0 ++ g.1 ++ [⟨"error getting repository", [("owner", owner), ("repo name", repoName)]⟩]
      createdRefs := []
      ret := .err e }
  | .ok repoOpt =>
    match repoOpt with
    | none => { logs := l0 ++ g.1, createdRefs := [], ret := .panicked }
    | some repo =>
      match repo.defaultBranch with
      | none => { logs := l0 ++ g.1, createdRefs := [], ret := .panicked }
      | some db =>
        let l1 := l0 ++ g.1 ++ [⟨"getting latest reference from default branch",
          [("owner", owner), ("repo name", repoName), ("default branch name", db)]⟩]
        match refCall.err with
        | some e =>
          { logs := l1 ++ [⟨"error getting latest reference from default branch",
              [("owner", owner), ("repo name", repoName), ("default branch name", db)]⟩]
            createdRefs := []
            ret := .err e }
        | none =>
          match refCall.value with
          | none => { logs := l1, createdRefs := [], ret := .panicked }
          | some ref =>
            match ref.object with
            | none => { logs := l1, createdRefs := [], ret := .panicked }
            | some obj =>
              let req : Reference :=
                { ref := some ("refs/heads/" ++ branchName), object := some { sha := obj.sha } }
              match createCall.err with
              | some e =>
                { logs := l1 ++ [⟨"error creating new branch",
                    [("owner", owner), ("repo name", repoName), ("new branch name", branchName)]⟩]
                  createdRefs := [req]
                  ret := .err e }
              | none => { logs := l1, createdRefs := [req], ret := .ok createCall.value }

structure FileRun where
  logs : List LogRecord
  request : RepositoryContentFileOptions
  ret : Ret (Option RepositoryContentResponse)
deriving DecidableEq, Repr

/-- `CreateOrUpdateFile`: fills `RepositoryContentFileOptions` (the `SHA`
field is always `github.Ptr(replacingFileSHA)`) and calls
`Repositories.CreateFile`. -/
def CreateOrUpdateFile (owner repoName branch commitMessage filePath replacingFileSHA : String)
    (fileContent : List Nat) (call : CallResult RepositoryContentResponse) : FileRun :=
  let l0 := [⟨"creating file",
    [("repo name", repoName), ("branch name", branch), ("file path", filePath)]⟩]
  let req : RepositoryContentFileOptions :=
    { message := some commitMessage
      content := fileContent
      sha := some replacingFileSHA
      branch := some branch }
  match call.err with
  | some e =>
    { logs := l0 ++ [⟨"error creating file",
        [("repo name", repoName), ("branch name", branch), ("file path", filePath)]⟩]
      request := req
      ret := .err e }
  | none => { logs := l0, request := req, ret := .ok call.value }

/-- `GetRepositoryContent`: reads `res.StatusCode` (nil `res` panics), logs
not-found on 404, errors only when `err != nil` and the status is not 404,
otherwise returns whatever contents the platform call produced. -/
def GetRepositoryContent (owner repoName path ref : String) (call : ContentsResult) :
    List LogRecord × Ret (Option RepositoryContent × Option (List RepositoryContent)) :=
  let l0 := [⟨"getting repository content",
    [("repo name", repoName), ("ref", ref), ("path", path)]⟩]
  match call.res with
  | none => (l0, .panicked)
  | some res =>
    let l1 := l0 ++
      (if res.statusCode = 404 then
        [⟨"file/path not found", [("repo name", repoName), ("ref", ref), ("path", path)]⟩]
      else [])
    match call.err with
    | some e =>
      if res.statusCode ≠ 404 then
        (l1 ++ [⟨"error getting repository content",
          [("repo name", repoName), ("ref", ref), ("path", path)]⟩], .err e)
      else (l1, .ok (call.fileContent, call.directoryContent))
    | none => (l1, .ok (call.fileContent, call.directoryContent))

/-- Events of one `CreateOrUpdateRepositorySecret` run: the key-fetch
platform call, invocations of the sealing engine, and the submission
platform call. -/
inductive SecretEvent where
  | fetchKey (owner repo : String)
  | seal (keyB64 value : String)
  | submit (owner repo : String) (sec : EncryptedSecret)
deriving DecidableEq, Repr

structure SecretRun where
  logs : List LogRecord
  events : List SecretEvent
  ret : Ret Unit
deriving DecidableEq, Repr

/-- `CreateOrUpdateRepositorySecret`: fetches the repository public key
(`pkCall`), logs on fetch error but does not return, dereferences
`*key.Key` (nil panics), calls `encryptSecret`, then dereferences
`*key.KeyID` and submits the encrypted secret (`putErr` is the submission
call's error). -/
def CreateOrUpdateRepositorySecret (owner repoName secretName secretValue : String)
    (pkCall : CallResult PublicKey) (eph : List Nat) (putErr : Option GoError) : SecretRun :=
  let l0 := [⟨"creating or updating repository secret",
    [("repo name", repoName), ("secret name", secretName)]⟩]
  let l1 := l0 ++
    (match pkCall.err with
    | some _ => [⟨"error getting repository public key", [("repo name", repoName)]⟩]
    | none => [])
  let ev0 := [SecretEvent.fetchKey owner repoName]
  match pkCall.value with
  | none => { logs := l1, events := ev0, ret := .panicked }
  | some k =>
    match k.key with
    | none => { logs := l1, events := ev0, ret := .panicked }
    | some keyStr =>
      let ev1 := ev0 ++ [SecretEvent.seal keyStr secretValue]
      match (encryptSecretRun eph keyStr secretValue).2 with
      | .error e =>
        { logs := l1 ++ [⟨"error encrypting secret",
            [("repo name", repoName), ("secret name", secretName)]⟩]
          events := ev1
          ret := .err e }
      | .ok encryptedSecret =>
        match k.keyID with
        | none => { logs := l1, events := ev1, ret := .panicked }
        | some kid =>
          let ev2 := ev1 ++
            [SecretEvent.submit owner repoName ⟨secretName, kid, encryptedSecret⟩]
          match putErr with
          | some e =>
            { logs := l1 ++ [⟨"error creating or updating repo secret",
                [("repo name", repoName), ("secret name", secretName)]⟩]
              events := ev2
              ret := .err e }
          | none => { logs := l1, events := ev2, ret := .ok () }

/-! ### Claims -/

/-- Claim C1 (code bug): the claim says a failed key fetch makes
`CreateOrUpdateRepositorySecret` abort and return an error before any
sealing call.  In the code the key-fetch error branch only logs — the
`return err` is missing — and execution falls through to `*key.Key`,
which dereferences the nil key returned alongside the error: the run
panics instead of returning an error.  No sealing or submission event is
reached, but no error is returned either. -/
theorem c1_keyFetchFailure_panics_without_abort :
    CreateOrUpdateRepositorySecret "octo" "repo" "DEPLOY_TOKEN" "s3cr3t"
        ⟨none, some ⟨500⟩, some (.api "boom")⟩ (List.replicate 32 0) none =
      { logs := [⟨"creating or updating repository secret",
                  [("repo name", "repo"), ("secret name", "DEPLOY_TOKEN")]⟩,
                 ⟨"error getting repository public key", [("repo name", "repo")]⟩]
        events := [.fetchKey "octo" "repo"]
        ret := .panicked } := rfl

/-- Claim C2: sealing the same plaintext under the same valid recipient
key with two distinct freshly generated ephemeral keypairs yields two
different ciphertexts (the ephemeral public key is prepended to the
sealed bytes, and base64 re-encoding is injective). -/
theorem c2_encryptSecret_nondeterministic (eph1 eph2 kb : List Nat)
    (keyB64 secretValue : String)
    (hk : decodeB64 keyB64 = some kb) (hklen : kb.length = 32)
    (h1 : eph1.length = 32) (h2 : eph2.length = 32)
    (hb1 : ∀ b ∈ eph1, b < 256) (hb2 : ∀ b ∈ eph2, b < 256)
    (hne : eph1 ≠ eph2) :
    encryptSecret eph1 keyB64 secretValue ≠ encryptSecret eph2 keyB64 secretValue := by
  simp only [encryptSecret, encryptSecretRun, hk, hklen, if_pos]
  simp only [ne_eq, Except.ok.injEq]
  refine encodeB64_inj _ _ (sealAnonymous_lt _ _ _ hb1) (sealAnonymous_lt _ _ _ hb2) ?_
  intro hseal
  apply hne
  have := congrArg (List.take 32) hseal
  rwa [sealAnonymous_take _ _ _ h1, sealAnonymous_take _ _ _ h2] at this

/-- Witness for C2 at a concrete 32-byte key and two concrete ephemeral keys. -/
theorem c2_encryptSecret_nondeterministic_witness :
    (decodeB64 "AAAAAAAAAAAAAAAAAAAAAAAAAAAAAAAAAAAAAAAAAAA=" = some (List.replicate 32 0)
      ∧ (List.replicate 32 0 : List Nat).length = 32
      ∧ (1 :: List.replicate 31 0 : List Nat).length = 32
      ∧ (List.replicate 32 0 : List Nat) ≠ 1 :: List.replicate 31 0)
    ∧ encryptSecret (List.replicate 32 0) "AAAAAAAAAAAAAAAAAAAAAAAAAAAAAAAAAAAAAAAAAAA=" "s3cr3t"
        ≠ encryptSecret (1 :: List.replicate 31 0)
            "AAAAAAAAAAAAAAAAAAAAAAAAAAAAAAAAAAAAAAAAAAA=" "s3cr3t" :=
  ⟨⟨by decide, by decide, by decide, by decide⟩,
    c2_encryptSecret_nondeterministic (List.replicate 32 0) (1 :: List.replicate 31 0)
      (List.replicate 32 0) _ "s3cr3t" (by decide) (by decide) (by decide) (by decide)
      (by decide) (by decide) (by decide)⟩

/-- Claim C3: if the recipient key does not decode to the expected fixed
size (32 bytes), `encryptSecret` fails with `InvalidKeyError` and the
underlying sealing primitive is never invoked (the instrumented seal-call
trace is empty). -/
theorem c3_encryptSecret_invalidKey (eph : List Nat) (keyB64 secretValue : String)
    (h : keyDecodesTo32 keyB64 = false) :
    encryptSecretRun eph keyB64 secretValue = ([], .error .invalidKeyError) := by
  cases hd : decodeB64 keyB64 with
  | none => simp [encryptSecretRun, hd]
  | some kb =>
    have hlen : ¬ kb.length = 32 := by
      have h' := h
      unfold keyDecodesTo32 at h'
      rw [hd] at h'
      simpa using h'
    simp [encryptSecretRun, hd, hlen]

/-- Witness for C3: "AAAA" decodes to 3 bytes, not 32. -/
theorem c3_encryptSecret_invalidKey_witness :
    keyDecodesTo32 "AAAA" = false
    ∧ encryptSecretRun (List.replicate 32 0) "AAAA" "s3cr3t"
        = ([], .error .invalidKeyError) :=
  ⟨by decide, c3_encryptSecret_invalidKey (List.replicate 32 0) "AAAA" "s3cr3t" (by decide)⟩

/-- Claim C4: for a valid recipient key, `encryptSecret` succeeds and the
sealed byte sequence (before base64 re-encoding) has length equal to the
plaintext byte length plus the fixed 48-byte overhead (32-byte ephemeral
public key plus 16-byte authentication tag). -/
theorem c4_encryptSecret_ciphertext_length (eph kb : List Nat) (keyB64 secretValue : String)
    (hk : decodeB64 keyB64 = some kb) (hklen : kb.length = 32) (heph : eph.length = 32) :
    encryptSecret eph keyB64 secretValue
        = .ok (encodeB64 (sealAnonymous eph kb (utf8Bytes secretValue)))
    ∧ (sealAnonymous eph kb (utf8Bytes secretValue)).length
        = (utf8Bytes secretValue).length + boxOverhead := by
  constructor
  · simp [encryptSecret, encryptSecretRun, hk, hklen]
  · exact sealAnonymous_length _ _ _ heph

/-- Witness for C4 at the end-to-end scenario of the spec:
value "s3cr3t" (6 bytes) seals to 54 bytes. -/
theorem c4_encryptSecret_ciphertext_length_witness :
    (decodeB64 "AAAAAAAAAAAAAAAAAAAAAAAAAAAAAAAAAAAAAAAAAAA=" = some (List.replicate 32 0)
      ∧ (List.replicate 32 0 : List Nat).length = 32)
    ∧ (encryptSecret (List.replicate 32 0) "AAAAAAAAAAAAAAAAAAAAAAAAAAAAAAAAAAAAAAAAAAA=" "s3cr3t"
        = .ok (encodeB64 (sealAnonymous (List.replicate 32 0) (List.replicate 32 0)
            (utf8Bytes "s3cr3t")))
      ∧ (sealAnonymous (List.replicate 32 0) (List.replicate 32 0) (utf8Bytes "s3cr3t")).length
          = (utf8Bytes "s3cr3t").length + boxOverhead) :=
  ⟨⟨by decide, by decide⟩,
    c4_encryptSecret_ciphertext_length (List.replicate 32 0) (List.replicate 32 0) _ "s3cr3t"
      (by decide) (by decide) (by decide)⟩

/-- Claim C5 (counterexample): a 404 response on repository lookup does
not yield a non-fatal not-found outcome — `GetRepository` logs the
not-found message but still returns an error. -/
theorem c5_getRepository_404_returns_error :
    (GetRepository "octo" "repo" ⟨none, some ⟨404⟩, some (.api "Not Found")⟩).2
      = .err (.wrap "error getting repository octo/repo" (.api "Not Found")) := rfl

/-- Claim C5 (amended): `GetRepositoryContent` treats 404 as a recognized,
non-fatal outcome (returns the call's contents without error) and returns
an error on every other failing status; `GetRepository` logs a recognized
not-found record on 404 but returns an error for every failed lookup,
including 404. -/
theorem c5_notFound_handling (owner repoName path ref : String)
    (c : ContentsResult) (rc : CallResult Repository) (r rr : Response) (e ee : GoError)
    (hc1 : c.res = some r) (hc2 : c.err = some e)
    (hr1 : rc.res = some rr) (hr2 : rc.err = some ee) :
    (r.statusCode = 404 →
      (GetRepositoryContent owner repoName path ref c).2
        = .ok (c.fileContent, c.directoryContent))
    ∧ (r.statusCode ≠ 404 → (GetRepositoryContent owner repoName path ref c).2 = .err e)
    ∧ (GetRepository owner repoName rc).2
        = .err (.wrap ("error getting repository " ++ owner ++ "/" ++ repoName) ee)
    ∧ (rr.statusCode = 404 →
        (⟨"repository not found", [("owner", owner), ("repo name", repoName)]⟩ : LogRecord)
          ∈ (GetRepository owner repoName rc).1) := by
  refine ⟨?_, ?_, ?_, ?_⟩
  · intro h404
    simp [GetRepositoryContent, hc1, hc2, h404]
  · intro hne
    simp [GetRepositoryContent, hc1, hc2, hne]
  · simp [GetRepository, hr1, hr2]
  · intro h404
    simp [GetRepository, hr1, hr2, h404]

/-- Witness for the amended C5 at a concrete 404 lookup and content read. -/
theorem c5_notFound_handling_witness :
    ((404 : Nat) = 404 →
      (GetRepositoryContent "octo" "repo" "README.md" "main"
          ⟨none, none, some ⟨404⟩, some (GoError.api "Not Found")⟩).2 = .ok (none, none))
    ∧ ((404 : Nat) ≠ 404 →
      (GetRepositoryContent "octo" "repo" "README.md" "main"
          ⟨none, none, some ⟨404⟩, some (GoError.api "Not Found")⟩).2
        = .err (GoError.api "Not Found"))
    ∧ (GetRepository "octo" "repo" ⟨none, some ⟨404⟩, some (GoError.api "Not Found")⟩).2
        = .err (GoError.wrap ("error getting repository " ++ "octo" ++ "/" ++ "repo")
            (GoError.api "Not Found"))
    ∧ ((404 : Nat) = 404 →
        (⟨"repository not found", [("owner", "octo"), ("repo name", "repo")]⟩ : LogRecord)
          ∈ (GetRepository "octo" "repo" ⟨none, some ⟨404⟩, some (GoError.api "Not Found")⟩).1) :=
  c5_notFound_handling "octo" "repo" "README.md" "main"
    ⟨none, none, some ⟨404⟩, some (GoError.api "Not Found")⟩
    ⟨none, some ⟨404⟩, some (GoError.api "Not Found")⟩
    ⟨404⟩ ⟨404⟩ (GoError.api "Not Found") (GoError.api "Not Found") rfl rfl rfl rfl

/-- Claim C6 (counterexample): on a pure transport failure of the
repository lookup (nil response object, non-nil error) the default
branch cannot be resolved, yet `CreateBranch` does not return an error —
it panics on the nil response's status read inside `GetRepository` (no
ref is created either). -/
theorem c6_transportFailure_no_error_return :
    (CreateBranch "octo" "repo" "feature" ⟨none, none, some (.api "no network")⟩
        ⟨none, none, none⟩ ⟨none, none, none⟩).ret = .panicked
    ∧ (CreateBranch "octo" "repo" "feature" ⟨none, none, some (.api "no network")⟩
        ⟨none, none, none⟩ ⟨none, none, none⟩).createdRefs = [] :=
  ⟨rfl, rfl⟩

/-- Claim C6 (amended): for every call of `CreateBranch`, no ref is ever
created before the default branch and its tip commit are resolved.  When
the repository lookup yields a response object, a failed resolution step
(lookup error or tip-ref error) returns an error with no `Git.CreateRef`
call, and on success the single created reference is
`refs/heads/<branch>` pointing exactly at the resolved tip SHA; when the
lookup yields no response object (pure transport failure), `CreateBranch`
panics on the nil response's status read — still creating no ref —
instead of returning an error. -/
theorem c6_CreateBranch_amended (owner repoName branchName : String)
    (repoCall : CallResult Repository) (refCall createCall : CallResult Reference)
    (hwf : repoCall.err = none →
      ∃ repo d, repoCall.value = some repo ∧ repo.defaultBranch = some d) :
    (repoCall.res = none →
      (CreateBranch owner repoName branchName repoCall refCall createCall).ret = .panicked
      ∧ (CreateBranch owner repoName branchName repoCall refCall createCall).createdRefs = [])
    ∧ (∀ r0, repoCall.res = some r0 →
      (∀ e, repoCall.err = some e →
        (CreateBranch owner repoName branchName repoCall refCall createCall).ret
            = .err (.wrap ("error getting repository " ++ owner ++ "/" ++ repoName) e)
          ∧ (CreateBranch owner repoName branchName repoCall refCall createCall).createdRefs = [])
      ∧ (∀ e, repoCall.err = none → refCall.err = some e →
          (CreateBranch owner repoName branchName repoCall refCall createCall).ret = .err e
          ∧ (CreateBranch owner repoName branchName repoCall refCall createCall).createdRefs = [])
      ∧ (∀ ref obj, repoCall.err = none → refCall.err = none → refCall.value = some ref →
          ref.object = some obj →
          (CreateBranch owner repoName branchName repoCall refCall createCall).createdRefs
              = [{ ref := some ("refs/heads/" ++ branchName), object := some { sha := obj.sha } }]
          ∧ (createCall.err = none →
              (CreateBranch owner repoName branchName repoCall refCall createCall).ret
                = .ok createCall.value))) := by
  constructor
  · intro hnone
    constructor <;> simp [CreateBranch, GetRepository, hnone]
  · intro r0 hres
    refine ⟨?_, ?_, ?_⟩
    · intro e he
      simp [CreateBranch, GetRepository, hres, he]
    · intro e he hre
      obtain ⟨repo, d, hv, hd⟩ := hwf he
      simp [CreateBranch, GetRepository, hres, he, hv, hd, hre]
    · intro ref obj he hre hrv hro
      obtain ⟨repo, d, hv, hd⟩ := hwf he
      cases hce : createCall.err with
      | none => simp [CreateBranch, GetRepository, hres, he, hv, hd, hre, hrv, hro, hce]
      | some e => simp [CreateBranch, GetRepository, hres, he, hv, hd, hre, hrv, hro, hce]

/-- Witness for the amended C6: a fully-resolved repository with default
branch "main" at SHA "abc123" leads to exactly one created ref at that
SHA. -/
theorem c6_CreateBranch_amended_witness :
    ((some (⟨200⟩ : Response) : Option Response) = none →
      (CreateBranch "octo" "repo" "feature"
          ⟨some ⟨some "repo", some "main"⟩, some ⟨200⟩, none⟩
          ⟨some ⟨some "refs/heads/main", some ⟨some "abc123"⟩⟩, some ⟨200⟩, none⟩
          ⟨some ⟨some "refs/heads/feature", some ⟨some "abc123"⟩⟩, some ⟨201⟩, none⟩).ret
          = .panicked
      ∧ (CreateBranch "octo" "repo" "feature"
          ⟨some ⟨some "repo", some "main"⟩, some ⟨200⟩, none⟩
          ⟨some ⟨some "refs/heads/main", some ⟨some "abc123"⟩⟩, some ⟨200⟩, none⟩
          ⟨some ⟨some "refs/heads/feature", some ⟨some "abc123"⟩⟩, some ⟨201⟩, none⟩).createdRefs
          = [])
    ∧ (∀ r0, (some (⟨200⟩ : Response) : Option Response) = some r0 →
      (∀ e, (none : Option GoError) = some e →
        (CreateBranch "octo" "repo" "feature"
            ⟨some ⟨some "repo", some "main"⟩, some ⟨200⟩, none⟩
            ⟨some ⟨some "refs/heads/main", some ⟨some "abc123"⟩⟩, some ⟨200⟩, none⟩
            ⟨some ⟨some "refs/heads/feature", some ⟨some "abc123"⟩⟩, some ⟨201⟩, none⟩).ret
            = .err (.wrap ("error getting repository " ++ "octo" ++ "/" ++ "repo") e)
          ∧ (CreateBranch "octo" "repo" "feature"
              ⟨some ⟨some "repo", some "main"⟩, some ⟨200⟩, none⟩
              ⟨some ⟨some "refs/heads/main", some ⟨some "abc123"⟩⟩, some ⟨200⟩, none⟩
              ⟨some ⟨some "refs/heads/feature", some ⟨some "abc123"⟩⟩, some ⟨201⟩, none⟩).createdRefs
            = [])
      ∧ (∀ e, (none : Option GoError) = none → (none : Option GoError) = some e →
          (CreateBranch "octo" "repo" "feature"
              ⟨some ⟨some "repo", some "main"⟩, some ⟨200⟩, none⟩
              ⟨some ⟨some "refs/heads/main", some ⟨some "abc123"⟩⟩, some ⟨200⟩, none⟩
              ⟨some ⟨some "refs/heads/feature", some ⟨some "abc123"⟩⟩, some ⟨201⟩, none⟩).ret
              = .err e
          ∧ (CreateBranch "octo" "repo" "feature"
              ⟨some ⟨some "repo", some "main"⟩, some ⟨200⟩, none⟩
              ⟨some ⟨some "refs/heads/main", some ⟨some "abc123"⟩⟩, some ⟨200⟩, none⟩
              ⟨some ⟨some "refs/heads/feature", some ⟨some "abc123"⟩⟩, some ⟨201⟩, none⟩).createdRefs
              = [])
      ∧ (∀ ref obj, (none : Option GoError) = none → (none : Option GoError) = none →
          (some (⟨some "refs/heads/main", some ⟨some "abc123"⟩⟩ : Reference)
            : Option Reference) = some ref →
          ref.object = some obj →
          (CreateBranch "octo" "repo" "feature"
              ⟨some ⟨some "repo", some "main"⟩, some ⟨200⟩, none⟩
              ⟨some ⟨some "refs/heads/main", some ⟨some "abc123"⟩⟩, some ⟨200⟩, none⟩
              ⟨some ⟨some "refs/heads/feature", some ⟨some "abc123"⟩⟩, some ⟨201⟩, none⟩).createdRefs
              = [{ ref := some ("refs/heads/" ++ "feature"), object := some { sha := obj.sha } }]
          ∧ ((none : Option GoError) = none →
              (CreateBranch "octo" "repo" "feature"
                  ⟨some ⟨some "repo", some "main"⟩, some ⟨200⟩, none⟩
                  ⟨some ⟨some "refs/heads/main", some ⟨some "abc123"⟩⟩, some ⟨200⟩, none⟩
                  ⟨some ⟨some "refs/heads/feature", some ⟨some "abc123"⟩⟩, some ⟨201⟩, none⟩).ret
                = .ok (some ⟨some "refs/heads/feature", some ⟨some "abc123"⟩⟩)))) :=
  c6_CreateBranch_amended "octo" "repo" "feature"
    ⟨some ⟨some "repo", some "main"⟩, some ⟨200⟩, none⟩
    ⟨some ⟨some "refs/heads/main", some ⟨some "abc123"⟩⟩, some ⟨200⟩, none⟩
    ⟨some ⟨some "refs/heads/feature", some ⟨some "abc123"⟩⟩, some ⟨201⟩, none⟩
    (fun _ => ⟨⟨some "repo", some "main"⟩, "main", rfl, rfl⟩)

/-- Claim C7 (counterexample): creating a brand-new file (caller passes an
empty `replacingFileSHA`) still sends a request whose `SHA` field is
present (`github.Ptr("")`), not absent. -/
theorem c7_create_carries_sha_field :
    (CreateOrUpdateFile "octo" "repo" "main" "add file" "README.md" "" [72, 105]
        ⟨none, none, none⟩).request.sha ≠ none := by decide

/-- Claim C7 (amended): `CreateOrUpdateFile` always fills the request's
`SHA` field with the caller-supplied `replacingFileSHA` — the empty
string when a new file is created — and never omits it. -/
theorem c7_request_always_has_sha (owner repoName branch commitMessage filePath
    replacingFileSHA : String) (fileContent : List Nat)
    (call : CallResult RepositoryContentResponse) :
    (CreateOrUpdateFile owner repoName branch commitMessage filePath replacingFileSHA
        fileContent call).request.sha = some replacingFileSHA := by
  obtain ⟨v, r, e⟩ := call
  cases e <;> rfl

/-- Claim C8 (code bug): on a pure transport failure (nil response object,
non-nil error) `GetRepository`, `CreateRepository` and
`GetRepositoryContent` all dereference `res.StatusCode` on the absent
response and panic, instead of returning a distinct transport error. -/
theorem c8_nil_response_dereference :
    (GetRepository "octo" "repo" ⟨none, none, some (.api "no network")⟩).2 = .panicked
    ∧ (CreateRepository "org" "repo" ⟨none, none, some (.api "no network")⟩).ret = .panicked
    ∧ (GetRepositoryContent "octo" "repo" "" ""
        ⟨none, none, none, some (.api "no network")⟩).2 = .panicked :=
  ⟨rfl, rfl, rfl⟩

/-- Claim C9: the log records emitted by `CreateOrUpdateRepositorySecret`
are independent of the plaintext secret value — running the operation
with the same repository, secret name and stubbed platform results but
two different secret values emits identical logs, so no record can
contain the plaintext. -/
theorem c9_secret_logs_independent_of_plaintext (owner repoName secretName v1 v2 : String)
    (pkCall : CallResult PublicKey) (eph : List Nat) (putErr : Option GoError) :
    (CreateOrUpdateRepositorySecret owner repoName secretName v1 pkCall eph putErr).logs
      = (CreateOrUpdateRepositorySecret owner repoName secretName v2 pkCall eph putErr).logs := by
  obtain ⟨v, r, e⟩ := pkCall
  cases v with
  | none => rfl
  | some k =>
    cases hk : k.key with
    | none => simp [CreateOrUpdateRepositorySecret, hk]
    | some keyStr =>
      cases hd : decodeB64 keyStr with
      | none =>
        simp [CreateOrUpdateRepositorySecret, encryptSecretRun, hk, hd]
      | some kb =>
        by_cases hl : kb.length = 32
        · cases hkid : k.keyID <;> cases putErr <;>
            simp [CreateOrUpdateRepositorySecret, encryptSecretRun, hk, hd, hl, hkid]
        · simp [CreateOrUpdateRepositorySecret, encryptSecretRun, hk, hd, hl]

/-- Claim C10: `CreateRepository` always sends the creation request with
an empty organization argument and a fixed repository body, so both the
request and the returned result are independent of the `organization`
parameter (which only appears in log output). -/
theorem c10_CreateRepository_organization_ignored (org1 org2 name : String)
    (call : CallResult Repository) :
    (CreateRepository org1 name call).request.1 = ""
    ∧ (CreateRepository org1 name call).request = (CreateRepository org2 name call).request
    ∧ (CreateRepository org1 name call).ret = (CreateRepository org2 name call).ret := by
  obtain ⟨v, r, e⟩ := call
  cases r with
  | none => exact ⟨rfl, rfl, rfl⟩
  | some res =>
    cases e with
    | none => exact ⟨rfl, rfl, rfl⟩
    | some ee => exact ⟨rfl, rfl, rfl⟩

end Gh
